import Mathlib

/-!
Shallow embedding of the user-managing service (FastAPI + Supabase facade).

Sources embedded:
  * src/src/models.py      — health data model (`HealthComponent`, `HealthResponse`)
  * src/src/cpuhealth.py   — `check_cpu_health`
  * src/src/diskhealth.py  — `check_disk_health`
  * src/src/main.py        — readiness aggregation (`readiness_check`), the
    UUID validation + retry (tenacity) + circuit breaker (pybreaker)
    pipeline around `fetch_user_from_supabase`, and the `get_user` endpoint.

Conventions: Python floats that are only compared and rendered (CPU / disk
utilization percentages, timestamps, backoff delays) are modelled as `ℚ`;
Python f-string interpolation is modelled with `toString` and `++`;
a function body that may raise is modelled as `Except PyExn _`; the raising
environment (psutil sampling, the HTTP transport) is passed in as a
parameter so that a single execution is a pure function of it.
-/

namespace UserManaging

/-! ## Health data model (src/models.py)

`models.py` declares `HealthComponent.status : str` and the probes populate
it with the strings "UP" / "DOWN" (via the `HealthStatus` enum imported in
`main.py` / `diskhealth.py`); we model the status as a two-valued type. -/

inductive HealthStatus
  | UP
  | DOWN
  deriving DecidableEq, Repr

/-- `HealthComponent`: status plus `details: Union[str, None] = None`. -/
structure HealthComponent where
  status : HealthStatus
  details : Option String := none
  deriving DecidableEq, Repr

/-- `HealthResponse`: overall status and a name → component mapping
(modelled, in insertion order, as an association list). -/
structure HealthResponse where
  status : HealthStatus
  components : List (String × HealthComponent)
  deriving DecidableEq, Repr

/-! ## CPU probe (src/cpuhealth.py) -/

/-- What one successful psutil sampling pass inside `check_cpu_health`
observes: `psutil.cpu_percent(interval=1)`, `psutil.cpu_count(logical=True)`
and `psutil.getloadavg()`. -/
structure CpuSample where
  cpu_usage : ℚ
  cpu_count : Nat
  load_avg : ℚ × ℚ × ℚ
  deriving DecidableEq, Repr

def MAX_CPU_USAGE : ℚ := 85

/-- `check_cpu_health`: the `try` body samples psutil (argument `.ok s`);
an exception anywhere in the sampling (argument `.error e`, carrying
`str(e)`) is caught and converted to a `DOWN` component. -/
def check_cpu_health (sample : Except String CpuSample) : HealthComponent :=
  match sample with
  | .error e => { status := .DOWN, details := some ("Failed to check CPU health: " ++ e) }
  | .ok s =>
      if s.cpu_usage > MAX_CPU_USAGE then
        { status := .DOWN
          details := some ("High CPU usage detected: " ++ toString s.cpu_usage
            ++ "%. Load average (1m, 5m, 15m): " ++ toString s.load_avg) }
      else
        { status := .UP
          details := some ("CPU usage at " ++ toString s.cpu_usage
            ++ "%. Load average (1m, 5m, 15m): " ++ toString s.load_avg
            ++ ". Logical CPUs: " ++ toString s.cpu_count) }

/-! ## Disk probe (src/diskhealth.py) -/

/-- The `psutil.disk_usage('/')` result, of which only `.percent` is read. -/
structure DiskUsage where
  percent : ℚ
  deriving DecidableEq, Repr

def disk_threshold : ℚ := 90

/-- `check_disk_health`: `DOWN` at or above the 90% threshold, else `UP`;
a sampling exception is caught and converted to a `DOWN` component. -/
def check_disk_health (usage : Except String DiskUsage) : HealthComponent :=
  match usage with
  | .error e => { status := .DOWN, details := some ("Failed to check disk health: " ++ e) }
  | .ok d =>
      if d.percent ≥ disk_threshold then
        { status := .DOWN, details := some ("Disk usage is critical: " ++ toString d.percent ++ "% used.") }
      else
        { status := .UP, details := some ("Disk usage is healthy: " ++ toString d.percent ++ "% used.") }

/-! ## Readiness aggregation (src/main.py, `readiness_check`) -/

/-- Outcome of the `requests.get` dependency check inside `readiness_check`:
either a response with a status code, or a raised exception (carrying
`str(e)`), which the endpoint-level `except Exception` catches. -/
inductive DbFetch
  | ok (status_code : Nat)
  | exn (msg : String)
  deriving DecidableEq, Repr

/-- `readiness_check`: runs the CPU and disk probes, performs the Supabase
metrics request, and builds the response.  The `try` block spans the whole
body, so a raised dependency fetch discards the probe results and yields a
single "error" component; on the normal path the overall status is the
literal `HealthStatus.UP` regardless of the component statuses. -/
def readiness_check (cpuS : Except String CpuSample) (diskS : Except String DiskUsage)
    (db : DbFetch) : HealthResponse :=
  match db with
  | .exn e =>
      { status := .DOWN
        components := [("error", { status := .DOWN, details := some e })] }
  | .ok code =>
      let cpu_health := check_cpu_health cpuS
      let disk_health := check_disk_health diskS
      let database_health : HealthComponent :=
        if code ≠ 200 then
          { status := .DOWN, details := some "Supabase service is unavailable." }
        else
          { status := .UP, details := some "Supabase service is operational." }
      { status := .UP
        components := [("cpu", cpu_health), ("database", database_health), ("disk", disk_health)] }

/-! ## Resilient user fetch (src/main.py)

`fetch_user_from_supabase` is composed as `retry_strategy(breaker(body))`:
tenacity's retry decorator on the outside, the pybreaker circuit breaker
inside it, and a body that first validates the UUID and then performs the
HTTP POST.  We embed the three layers explicitly. -/

/-- Exceptions that can cross the layers of the pipeline. -/
inductive PyExn
  | httpExc (status_code : Nat) (detail : String)
  | requestExc (msg : String)
  | circuitBreakerErr (msg : String)
  | retryErr
  deriving DecidableEq, Repr

/-- `str(e)` for the exceptions above (Starlette's `HTTPException.__str__`
is `f"{status_code}: {detail}"`; `RequestException` prints its message). -/
def pyStr : PyExn → String
  | .httpExc c d => toString c ++ ": " ++ d
  | .requestExc m => m
  | .circuitBreakerErr m => m
  | .retryErr => "RetryError"

/-- One outcome of `requests.post` to the Supabase GraphQL endpoint: a
response with a status code and (for 200) the decoded
`data.users_dataCollection.edges` list (nodes kept opaque as strings), or a
raised `requests.exceptions.RequestException`. -/
inductive RemoteResult
  | response (status_code : Nat) (edges : List String)
  | transportError (msg : String)
  deriving DecidableEq, Repr

/-- `[0-9a-fA-F]` -/
def hexChar (c : Char) : Bool :=
  (Nat.ble 48 c.toNat && Nat.ble c.toNat 57) ||
  (Nat.ble 97 c.toNat && Nat.ble c.toNat 102) ||
  (Nat.ble 65 c.toNat && Nat.ble c.toNat 70)

def hexGroup (g : List Char) (n : Nat) : Bool :=
  g.length == n && g.all hexChar

/-- Split a character list on dashes (the regex's groups never contain a
dash, so the regex is equivalent to a condition on the dash-split). -/
def splitDash : List Char → List (List Char)
  | [] => [[]]
  | c :: cs =>
      if c = Char.ofNat 45 then [] :: splitDash cs
      else
        match splitDash cs with
        | g :: gs => (c :: g) :: gs
        | [] => [[c]]

/-- `re.match(r"^[0-9a-fA-F]{8}-[0-9a-fA-F]{4}-[0-9a-fA-F]{4}-[0-9a-fA-F]{4}-[0-9a-fA-F]{12}$", s)`:
five all-hex dash-separated groups of lengths 8, 4, 4, 4, 12.  Python's
non-MULTILINE `$` also matches just before one trailing newline, so such a
newline is stripped first. -/
def validUUID (s : String) : Bool :=
  let cs := s.toList
  let cs := if cs.getLast? = some (Char.ofNat 10) then cs.dropLast else cs
  match splitDash cs with
  | [g1, g2, g3, g4, g5] =>
      hexGroup g1 8 && hexGroup g2 4 && hexGroup g3 4 && hexGroup g4 4 && hexGroup g5 12
  | _ => false

/-- pybreaker `CircuitBreaker(fail_max=3, reset_timeout=30)`.  The breaker
is `closed` or `opened` at some timestamp; pybreaker's half-open state is
entered and resolved within a single call, so in this sequential embedding
it never persists between calls and is folded into the elapsed-`opened`
branch of `breakerCall`. -/
inductive CircuitState
  | closed
  | opened (openedAt : ℚ)
  deriving DecidableEq, Repr

structure Breaker where
  fail_counter : Nat
  circuit : CircuitState
  deriving DecidableEq, Repr

def fail_max : Nat := 3
def reset_timeout : ℚ := 30

/-- Mutable state threaded through one `get_user` call: the process-wide
breaker, the number of `requests.post` invocations performed so far (to
state "the remote operation was / was not invoked"), and the current time
in seconds (advanced only by tenacity's backoff sleeps). -/
structure CallSt where
  breaker : Breaker
  invocations : Nat
  now : ℚ
  deriving DecidableEq, Repr

/-- The body of `fetch_user_from_supabase`: validate the UUID (raising
`HTTPException(400, "Invalid UUID format")` on failure, before any network
activity), then POST (`op` maps the invocation index to its outcome) and
raise `RequestException` on a non-200 status.  Returns the result together
with the updated invocation count. -/
def fetchBody (user_id : String) (op : Nat → RemoteResult) (invocations : Nat) :
    Except PyExn (List String) × Nat :=
  if validUUID user_id then
    match op invocations with
    | .transportError m => (.error (.requestExc m), invocations + 1)
    | .response code edges =>
        if code ≠ 200 then
          (.error (.requestExc "Failed to fetch data from Supabase"), invocations + 1)
        else
          (.ok edges, invocations + 1)
  else
    (.error (.httpExc 400 "Invalid UUID format"), invocations)

/-- One pass through the pybreaker decorator around `fetchBody`:
  * `opened t`, timeout not elapsed (`now < t + reset_timeout`): raise
    `CircuitBreakerError` without calling the body;
  * `opened t`, timeout elapsed: half-open trial — run the body; success
    closes the circuit and resets the counter; failure increments the
    counter, reopens at `now`, and raises `CircuitBreakerError`;
  * `closed`: run the body; success resets the counter; a counted failure
    increments it, and when the counter reaches `fail_max` the breaker
    opens at `now` and raises `CircuitBreakerError` in place of the
    original exception (otherwise the original exception is re-raised).
All exceptions count as failures (the breaker has no `exclude` list), so a
validation `HTTPException` raised inside the body is counted too. -/
def breakerCall (user_id : String) (op : Nat → RemoteResult) (s : CallSt) :
    CallSt × Except PyExn (List String) :=
  match s.breaker.circuit with
  | .opened t =>
      if s.now < t + reset_timeout then
        (s, .error (.circuitBreakerErr "Timeout not elapsed yet, circuit breaker still open"))
      else
        let (res, inv) := fetchBody user_id op s.invocations
        match res with
        | .ok v => ({ s with breaker := ⟨0, .closed⟩, invocations := inv }, .ok v)
        | .error _ =>
            ({ s with breaker := ⟨s.breaker.fail_counter + 1, .opened s.now⟩, invocations := inv },
             .error (.circuitBreakerErr "Trial call failed, circuit breaker opened"))
  | .closed =>
      let (res, inv) := fetchBody user_id op s.invocations
      match res with
      | .ok v => ({ s with breaker := ⟨0, .closed⟩, invocations := inv }, .ok v)
      | .error e =>
          let c := s.breaker.fail_counter + 1
          if fail_max ≤ c then
            ({ s with breaker := ⟨c, .opened s.now⟩, invocations := inv },
             .error (.circuitBreakerErr "Failures threshold reached, circuit breaker opened"))
          else
            ({ s with breaker := ⟨c, .closed⟩, invocations := inv }, .error e)

/-! tenacity `retry(stop=stop_after_attempt(3),
wait=wait_exponential(multiplier=1, min=2, max=6),
retry=retry_if_exception_type(requests.exceptions.RequestException))`. -/

def retry_multiplier : ℚ := 1
def wait_min : ℚ := 2
def wait_max : ℚ := 6
def wait_exp_base : ℚ := 2
def stop_attempts : Nat := 3

/-- tenacity `wait_exponential.__call__`:
`max(max(0, min), min(multiplier * exp_base ** (attempt_number - 1), max))`. -/
def waitExp (attempt_number : Nat) : ℚ :=
  max (max 0 wait_min) (min (retry_multiplier * wait_exp_base ^ (attempt_number - 1)) wait_max)

/-- `retry_if_exception_type(requests.exceptions.RequestException)`. -/
def isRetryableExn : PyExn → Bool
  | .requestExc _ => true
  | _ => false

/-- tenacity's attempt loop: run the breaker-wrapped body; on success
return; on a non-retryable exception re-raise it; on a retryable one, stop
with `RetryError` once `stop_after_attempt(3)` is met, else sleep the
backoff delay (advancing `now`) and try again.  `fuel` bounds the
recursion; `fetch_user_from_supabase` supplies `fuel = stop_attempts`,
which the stop condition never lets run out. -/
def retryLoop (user_id : String) (op : Nat → RemoteResult) :
    Nat → Nat → CallSt → CallSt × Except PyExn (List String)
  | 0, _, s => (s, .error .retryErr)
  | fuel + 1, attempt, s =>
      match breakerCall user_id op s with
      | (s1, .ok v) => (s1, .ok v)
      | (s1, .error e) =>
          if isRetryableExn e then
            if stop_attempts ≤ attempt then
              (s1, .error .retryErr)
            else
              retryLoop user_id op fuel (attempt + 1) { s1 with now := s1.now + waitExp attempt }
          else
            (s1, .error e)

/-- The decorated `fetch_user_from_supabase`: the tenacity loop starting at
attempt number 1. -/
def fetch_user_from_supabase (user_id : String) (op : Nat → RemoteResult) (s : CallSt) :
    CallSt × Except PyExn (List String) :=
  retryLoop user_id op stop_attempts 1 s

/-- What the `get_user` endpoint hands back to the HTTP layer: a user node,
or an `HTTPException` with status code and detail. -/
inductive HttpResponse
  | user (node : String)
  | httpError (status_code : Nat) (detail : String)
  deriving DecidableEq, Repr

/-- The `try` block of `get_user`: fetch, then raise
`HTTPException(404, ...)` when the edges list is empty, else return the
first node. -/
def getUserTryBody (user_id : String) (op : Nat → RemoteResult) (s : CallSt) :
    CallSt × Except PyExn String :=
  match fetch_user_from_supabase user_id op s with
  | (s1, .ok []) => (s1, .error (.httpExc 404 ("No user found with ID " ++ user_id ++ ".")))
  | (s1, .ok (n :: _)) => (s1, .ok n)
  | (s1, .error e) => (s1, .error e)

/-- `get_user`: the try body under the endpoint's `except` clauses, in
source order — `RetryError` → 503, `pybreaker.CircuitBreakerError` → 503,
and a final `except Exception as e` → `HTTPException(400, str(e))` that
also catches `HTTPException`s raised inside the try block. -/
def get_user (user_id : String) (op : Nat → RemoteResult) (s : CallSt) :
    CallSt × HttpResponse :=
  match getUserTryBody user_id op s with
  | (s1, .ok n) => (s1, .user n)
  | (s1, .error .retryErr) =>
      (s1, .httpError 503 "Service temporarily unavailable after multiple retry attempts. Please try again later.")
  | (s1, .error (.circuitBreakerErr _)) =>
      (s1, .httpError 503 "Service temporarily unavailable due to repeated failures.")
  | (s1, .error e) => (s1, .httpError 400 (pyStr e))

/-- A concrete well-formed UUID used in concrete runs. -/
def uuid0 : String := "123e4567-e89b-12d3-a456-426614174000"

/-! ## Helper lemmas -/

theorem validUUID_uuid0 : validUUID uuid0 = true := by decide

theorem validUUID_not_a_uuid : validUUID "not-a-uuid" = false := by decide

theorem waitExp_one : waitExp 1 = 2 := by
  norm_num [waitExp, retry_multiplier, wait_min, wait_max, wait_exp_base]

theorem waitExp_two : waitExp 2 = 2 := by
  norm_num [waitExp, retry_multiplier, wait_min, wait_max, wait_exp_base]

/-! ## Claim theorems -/

/-- C1: the claim says the overall status of the aggregated readiness
response is DOWN when any component is DOWN, and in particular that
`{cpu: UP, disk: DOWN, dep: UP}` aggregates to overall DOWN.  Evaluating
`readiness_check` at exactly that set of probe results (CPU 50% → UP, disk
95% → DOWN, dependency 200 → UP) shows the code returns overall UP: the
normal path hardcodes `HealthStatus.UP` regardless of component statuses
(`{UP, UP, UP}` does aggregate to UP, as claimed). -/
theorem C1_readiness_overall_up_despite_down_component :
    (let r := readiness_check (.ok ⟨50, 8, (0, 0, 0)⟩) (.ok ⟨95⟩) (.ok 200)
     (r.components.lookup "cpu").map HealthComponent.status = some .UP ∧
     (r.components.lookup "disk").map HealthComponent.status = some .DOWN ∧
     (r.components.lookup "database").map HealthComponent.status = some .UP ∧
     r.status = .UP) ∧
    (readiness_check (.ok ⟨50, 8, (0, 0, 0)⟩) (.ok ⟨70⟩) (.ok 200)).status = .UP := by
  decide

/-- C5: the claim says the backoff delay between attempt k and k+1 is
`min(baseDelay * multiplier^(k-1), maxDelay)`, giving waits of 2s then 4s.
The configured tenacity policy `wait_exponential(multiplier=1, min=2,
max=6)` computes `max(max(0, 2), min(1 * 2^(k-1), 6))`, which yields 2s
after attempt 1 and again 2s — not 4s — after attempt 2 (contradicting the
source's own comment "Exponential backoff: 2s, 4s, 6s"). -/
theorem C5_backoff_waits_are_2s_2s :
    waitExp 1 = 2 ∧ waitExp 2 = 2 ∧ ¬ waitExp 2 = 4 := by
  refine ⟨waitExp_one, waitExp_two, ?_⟩
  rw [waitExp_two]
  norm_num

/-- C6 counterexample: the claim says a probe that fails internally during
aggregation never prevents the other probes' results from appearing.  At
the concrete input where the CPU probe reads 50% (UP), the disk probe reads
70% (UP), and the dependency fetch raises "connection refused", the
response contains no "cpu" and no "disk" entry at all — only a single
"error" component — so the other probes' results are discarded. -/
theorem C6_counterexample_db_raise_discards_probes :
    (let r := readiness_check (.ok ⟨50, 8, (0, 0, 0)⟩) (.ok ⟨70⟩) (.exn "connection refused")
     r.components.lookup "cpu" = none ∧
     r.components.lookup "disk" = none ∧
     r = { status := .DOWN
           components := [("error", { status := .DOWN, details := some "connection refused" })] }) := by
  decide

/-- C6 amended: the CPU and disk probes catch their own internal failures
and convert them to DOWN components with a failure-description detail, and
(whenever the dependency fetch returns, with any status code) one probe's
internal failure never prevents the other probes' results from appearing in
the aggregated response; but when the dependency fetch itself raises, the
aggregated response collapses to a single "error" component and the CPU and
disk results are discarded. -/
theorem C6_probe_failure_containment (e : String) (cpuS : Except String CpuSample)
    (diskS : Except String DiskUsage) (code : Nat) :
    check_cpu_health (.error e) =
      { status := .DOWN, details := some ("Failed to check CPU health: " ++ e) } ∧
    check_disk_health (.error e) =
      { status := .DOWN, details := some ("Failed to check disk health: " ++ e) } ∧
    (readiness_check (.error e) diskS (.ok code)).components.lookup "disk" =
      some (check_disk_health diskS) ∧
    (readiness_check cpuS (.error e) (.ok code)).components.lookup "cpu" =
      some (check_cpu_health cpuS) ∧
    readiness_check cpuS diskS (.exn e) =
      { status := .DOWN, components := [("error", { status := .DOWN, details := some e })] } := by
  refine ⟨rfl, rfl, ?_, ?_, rfl⟩ <;> simp [readiness_check, List.lookup]

/-- C7: for a measured CPU utilization u against the threshold 85, the CPU
probe returns UP when u ≤ 85 and DOWN when u > 85, with the measured value
rendered inside the details text; in particular u = 50 gives UP and
u = 90 gives DOWN. -/
theorem C7_cpu_probe_threshold (u : ℚ) (n : Nat) (l : ℚ × ℚ × ℚ) :
    (check_cpu_health (.ok ⟨u, n, l⟩)).status = (if u ≤ 85 then .UP else .DOWN) ∧
    (∃ pre suf, (check_cpu_health (.ok ⟨u, n, l⟩)).details = some (pre ++ toString u ++ suf)) ∧
    (check_cpu_health (.ok ⟨50, 8, (0, 0, 0)⟩)).status = .UP ∧
    (check_cpu_health (.ok ⟨90, 8, (0, 0, 0)⟩)).status = .DOWN := by
  refine ⟨?_, ?_, by decide, by decide⟩
  · rcases le_or_lt u 85 with h | h
    · rw [if_pos h]
      simp [check_cpu_health, MAX_CPU_USAGE, not_lt.2 h]
    · rw [if_neg (not_le.2 h)]
      simp [check_cpu_health, MAX_CPU_USAGE, h]
  · rcases le_or_lt u 85 with h | h
    · exact ⟨"CPU usage at ",
        "%. Load average (1m, 5m, 15m): " ++ (toString l ++ (". Logical CPUs: " ++ toString n)),
        by simp [check_cpu_health, MAX_CPU_USAGE, not_lt.2 h, String.append_assoc]⟩
    · exact ⟨"High CPU usage detected: ",
        "%. Load average (1m, 5m, 15m): " ++ toString l,
        by simp [check_cpu_health, MAX_CPU_USAGE, h, String.append_assoc]⟩

/-- C8: for a measured disk utilization percentage p against the threshold
90, the disk probe returns DOWN when p ≥ 90 and UP when p < 90, with the
percentage rendered inside the details text in both cases; in particular
p = 95 gives DOWN and p = 70 gives UP. -/
theorem C8_disk_probe_threshold (p : ℚ) :
    (check_disk_health (.ok ⟨p⟩)).status = (if p ≥ 90 then .DOWN else .UP) ∧
    (∃ pre suf, (check_disk_health (.ok ⟨p⟩)).details = some (pre ++ toString p ++ suf)) ∧
    (check_disk_health (.ok ⟨95⟩)).status = .DOWN ∧
    (check_disk_health (.ok ⟨70⟩)).status = .UP := by
  refine ⟨?_, ?_, by decide, by decide⟩
  · rcases le_or_lt 90 p with h | h
    · rw [if_pos h]
      simp [check_disk_health, disk_threshold, h]
    · rw [if_neg (not_le.2 h)]
      simp [check_disk_health, disk_threshold, not_le.2 h]
  · rcases le_or_lt 90 p with h | h
    · exact ⟨"Disk usage is critical: ", "% used.",
        by simp [check_disk_health, disk_threshold, h]⟩
    · exact ⟨"Disk usage is healthy: ", "% used.",
        by simp [check_disk_health, disk_threshold, not_le.2 h]⟩

/-- C10: every component produced by the CPU and disk probes — on the UP
branch, the over-threshold DOWN branch, and the internal-exception branch —
carries a non-None details string, although the model declares `details`
as optional. -/
theorem C10_probe_details_always_present (cs : Except String CpuSample)
    (ds : Except String DiskUsage) :
    (check_cpu_health cs).details ≠ none ∧ (check_disk_health ds).details ≠ none := by
  constructor
  · cases cs with
    | error e => simp [check_cpu_health]
    | ok s =>
        by_cases h : s.cpu_usage > MAX_CPU_USAGE <;> simp [check_cpu_health, h]
  · cases ds with
    | error e => simp [check_disk_health]
    | ok d =>
        by_cases h : d.percent ≥ disk_threshold <;> simp [check_disk_health, h]

/-- C2: the claim says a validation failure (user_id not matching the UUID
regex) returns immediately without invoking the remote operation and
without changing circuit state or the consecutive-failure counter, with
validation running before the circuit gate.  Evaluating the code at
user_id = "not-a-uuid": the remote operation is indeed never invoked, but
the `HTTPException` raised inside the breaker-wrapped function is counted —
the failure counter goes from 0 to 1; from a counter of 2 the same invalid
input trips the circuit OPEN and the caller gets the circuit 503 instead of
a validation 400; and with the circuit already open the gate fires before
validation ever runs. -/
theorem C2_validation_failure_counts_as_breaker_failure :
    (let r := get_user "not-a-uuid" (fun _ => .transportError "unused") ⟨⟨0, .closed⟩, 0, 0⟩
     r.1.invocations = 0 ∧
     r.1.breaker = ⟨1, .closed⟩ ∧
     r.2 = .httpError 400 "400: Invalid UUID format") ∧
    (let r2 := get_user "not-a-uuid" (fun _ => .transportError "unused") ⟨⟨2, .closed⟩, 0, 0⟩
     r2.1.breaker = ⟨3, .opened 0⟩ ∧
     r2.2 = .httpError 503 "Service temporarily unavailable due to repeated failures.") ∧
    (get_user "not-a-uuid" (fun _ => .transportError "unused") ⟨⟨3, .opened 0⟩, 0, 10⟩ =
      (⟨⟨3, .opened 0⟩, 0, 10⟩,
       .httpError 503 "Service temporarily unavailable due to repeated failures.")) := by
  refine ⟨⟨?_, ?_, ?_⟩, ⟨?_, ?_⟩, ?_⟩ <;>
    norm_num [get_user, getUserTryBody, fetch_user_from_supabase, retryLoop, breakerCall,
      fetchBody, isRetryableExn, stop_attempts, fail_max, validUUID_not_a_uuid, pyStr,
      reset_timeout]
  all_goals decide

/-- C3 counterexample: the claim says that with maxAttempts = 3 and a
permanently failing retryable operation, the final outcome is
RetriesExhausted.  Running the code from a fresh closed circuit with a
transport error on every invocation: the operation is invoked exactly 3
times, but the third failure also reaches the breaker's fail_max = 3, so
pybreaker raises `CircuitBreakerError` in place of the transport error,
tenacity does not retry it, and the caller receives the circuit-open 503
("repeated failures"), not the retries-exhausted 503. -/
theorem C3_counterexample_outcome_is_circuit_open :
    (let r := get_user uuid0 (fun _ => .transportError "connection reset") ⟨⟨0, .closed⟩, 0, 0⟩
     r.1.invocations = 3 ∧
     r.2 = .httpError 503 "Service temporarily unavailable due to repeated failures." ∧
     r.2 ≠ .httpError 503 "Service temporarily unavailable after multiple retry attempts. Please try again later.") := by
  refine ⟨?_, ?_, ?_⟩ <;>
    norm_num [get_user, getUserTryBody, fetch_user_from_supabase, retryLoop, breakerCall,
      fetchBody, isRetryableExn, stop_attempts, fail_max, waitExp_one, waitExp_two,
      validUUID_uuid0, pyStr]
  all_goals decide

/-- C3 amended: starting from a closed circuit with a zero failure counter
and a remote operation that fails with a retryable transport error on every
invocation (any error messages, any start time), the operation is invoked
exactly maxAttempts = 3 times; the final outcome is CircuitOpen — the
breaker, whose failureThreshold equals maxAttempts, trips on the third
failure, leaving the circuit open — surfaced as the circuit 503, and
RetriesExhausted is never produced. -/
theorem C3_exactly_three_invocations_then_circuit_open (m : Nat → String) (t0 : ℚ) :
    (let op : Nat → RemoteResult := fun k => .transportError (m k)
     let r := get_user uuid0 op ⟨⟨0, .closed⟩, 0, t0⟩
     r.1.invocations = 3 ∧
     r.1.breaker = ⟨3, .opened (t0 + 2 + 2)⟩ ∧
     r.2 = .httpError 503 "Service temporarily unavailable due to repeated failures.") := by
  refine ⟨?_, ?_, ?_⟩ <;>
    norm_num [get_user, getUserTryBody, fetch_user_from_supabase, retryLoop, breakerCall,
      fetchBody, isRetryableExn, stop_attempts, fail_max, waitExp_one, waitExp_two,
      validUUID_uuid0, pyStr]

/-- C4: after exactly failureThreshold = 3 consecutive transport failures
(counted one per breaker pass, from a closed circuit with a zero counter:
1, then 2, then OPEN on the third) the circuit transitions to OPEN; and any
call attempted while OPEN before reset_timeout = 30s has elapsed returns
the CircuitOpen outcome — the state, including the invocation count, is
untouched, so the remote operation is not invoked — surfaced by `get_user`
as the circuit 503. -/
theorem C4_three_failures_open_circuit_then_gate (m : Nat → String) (i0 : Nat) (t0 : ℚ)
    (s : CallSt) (t : ℚ) (uid : String) (op : Nat → RemoteResult)
    (hcirc : s.breaker.circuit = .opened t) (hnow : s.now < t + reset_timeout) :
    (let opf : Nat → RemoteResult := fun k => .transportError (m k)
     let s0 : CallSt := ⟨⟨0, .closed⟩, i0, t0⟩
     let s1 := (breakerCall uuid0 opf s0).1
     let s2 := (breakerCall uuid0 opf s1).1
     let s3 := (breakerCall uuid0 opf s2).1
     s1.breaker = ⟨1, .closed⟩ ∧ s2.breaker = ⟨2, .closed⟩ ∧ s3.breaker = ⟨3, .opened t0⟩) ∧
    breakerCall uid op s =
      (s, .error (.circuitBreakerErr "Timeout not elapsed yet, circuit breaker still open")) ∧
    get_user uid op s =
      (s, .httpError 503 "Service temporarily unavailable due to repeated failures.") := by
  refine ⟨⟨?_, ?_, ?_⟩, ?_, ?_⟩ <;>
    simp [get_user, getUserTryBody, fetch_user_from_supabase, retryLoop, breakerCall,
      fetchBody, isRetryableExn, stop_attempts, fail_max, validUUID_uuid0, hcirc, hnow]

/-- C4 witness: the open-circuit gate of
`C4_three_failures_open_circuit_then_gate` evaluated at a circuit opened at
t = 5 with now = 20 < 5 + 30. -/
theorem C4_witness :
    ((⟨⟨3, .opened 5⟩, 7, 20⟩ : CallSt).breaker.circuit = .opened 5 ∧
     (⟨⟨3, .opened 5⟩, 7, 20⟩ : CallSt).now < 5 + reset_timeout) ∧
    get_user "u" (fun _ => .response 200 []) ⟨⟨3, .opened 5⟩, 7, 20⟩ =
      (⟨⟨3, .opened 5⟩, 7, 20⟩,
       .httpError 503 "Service temporarily unavailable due to repeated failures.") := by
  refine ⟨⟨rfl, by norm_num [reset_timeout]⟩, ?_⟩
  exact (C4_three_failures_open_circuit_then_gate (fun _ => "x") 0 0
    ⟨⟨3, .opened 5⟩, 7, 20⟩ 5 "u" (fun _ => .response 200 [])
    rfl (by norm_num [reset_timeout])).2.2

/-- C9: in `get_user`, when the circuit is closed and the upstream fetch
succeeds (status 200) with an empty edges list, the `HTTPException(404)`
raised inside the try block is caught by the endpoint's own generic
`except Exception` handler and re-raised as status 400 whose detail is the
str() of the 404 exception (embedding the not-found message); the caller
never receives a 404. -/
theorem C9_empty_edges_surface_as_400 (uid : String) (s : CallSt) (op : Nat → RemoteResult)
    (hv : validUUID uid = true) (hc : s.breaker.circuit = .closed)
    (hop : op s.invocations = .response 200 []) :
    get_user uid op s =
      ({ breaker := ⟨0, .closed⟩, invocations := s.invocations + 1, now := s.now },
       .httpError 400 (pyStr (.httpExc 404 ("No user found with ID " ++ uid ++ ".")))) ∧
    ∀ d, (get_user uid op s).2 ≠ .httpError 404 d := by
  have h : get_user uid op s =
      ({ breaker := ⟨0, .closed⟩, invocations := s.invocations + 1, now := s.now },
       .httpError 400 (pyStr (.httpExc 404 ("No user found with ID " ++ uid ++ ".")))) := by
    simp [get_user, getUserTryBody, fetch_user_from_supabase, retryLoop, breakerCall,
      fetchBody, isRetryableExn, stop_attempts, fail_max, hv, hc, hop]
  refine ⟨h, ?_⟩
  rw [h]
  simp

/-- C9 witness: `C9_empty_edges_surface_as_400` evaluated at a concrete
valid UUID, a fresh closed circuit, and a remote operation answering 200
with no edges: the concrete response is the 400 with the embedded 404
message. -/
theorem C9_witness :
    get_user uuid0 (fun _ => .response 200 []) ⟨⟨0, .closed⟩, 0, 0⟩ =
      (⟨⟨0, .closed⟩, 1, 0⟩,
       .httpError 400 "404: No user found with ID 123e4567-e89b-12d3-a456-426614174000.") := by
  have h := C9_empty_edges_surface_as_400 uuid0 ⟨⟨0, .closed⟩, 0, 0⟩
    (fun _ => .response 200 []) validUUID_uuid0 rfl rfl
  rw [h.1]
  decide

end UserManaging
